import Mathlib

/-!
# Verification of the windows-capture tinylogger session controller

A shallow embedding of the capture session controller of the
`MilkClouds/windows-capture` repository, covering:

* `src/examples/tinylogger.rs` — the `Flags` shared state, the
  `Capture::on_frame_arrived` frame handler, `Capture::on_closed`, and the
  control-channel loop body inside `main`;
* `src/windows-capture-python/src/encoder.rs` — the Python-binding
  `VideoEncoder` wrapper (`send_frame`, `finish`).

Encoder handles are modelled as `Nat` identifiers.  Side effects (encoder
feed/finalize calls, log lines, published messages, mutex acquire/release)
are recorded as an explicit event trace, so that claims about which calls
occur, and whether they occur while a lock is held, become statements about
the trace.  Panics (Rust `unwrap` on `None`/`Err`) and `?`-propagated errors
are recorded in an `Outcome`.  The results of external collaborator calls
that can fail (`send_frame`, `finish` on the underlying encoder,
`VideoEncoder::new`, `Frame::from_buffer`) are passed in as boolean
parameters, since the embedding does not model codec internals.
-/

namespace WinCap

/-- The two mutexes of `Flags` in tinylogger.rs (lines 29-32):
`capturing: Arc<Mutex<bool>>` and `video_encoder: Arc<Mutex<Option<VideoEncoder>>>`,
plus the mutex inside the Python-binding `VideoEncoder` wrapper
(encoder.rs line 16). -/
inductive Lock where
  | capturingLock
  | encoderLock
  | pyEncoderLock
  deriving DecidableEq, Repr

/-- Observable actions of the controller, recorded as a trace.
`sendFrame h` / `finishEnc h` are calls into the underlying encoder with
handle id `h`; `logMsg` is a `println!`/`print!` line; `pubMsg` is a
`publisher.send`; `acquire`/`release` bracket the lifetime of a
`MutexGuard`. -/
inductive Event where
  | acquire : Lock → Event
  | release : Lock → Event
  | sendFrame : Nat → Event
  | finishEnc : Nat → Event
  | logMsg : String → Event
  | pubMsg : String → Event
  deriving DecidableEq, Repr

/-- How an invocation ends: `ok` (returned `Ok(())` / kept looping),
`errored` (an `Err` propagated by `?`), `panicked` (a Rust panic, e.g.
`unwrap` on `None` or on a parse `Err`), `blocked` (a blocking receive with
no message available). -/
inductive Outcome where
  | ok
  | errored : String → Outcome
  | panicked : String → Outcome
  | blocked
  deriving DecidableEq, Repr

/-- The shared session state of tinylogger.rs (`Flags`, lines 29-32), as
seen through its two mutexes: the `capturing` flag and the optional
encoder handle in the slot. -/
structure SharedState where
  capturing : Bool
  encoderSlot : Option Nat
  deriving DecidableEq, Repr

/-- The full state of the `Capture` handler (tinylogger.rs lines 46-50):
the shared `Flags`, the `start: Instant` elapsed-time reference (modelled
as a `Nat` timestamp), and the handler-local `was_capturing` flag. -/
structure CaptureState where
  flags : SharedState
  start : Nat
  wasCapturing : Bool
  deriving DecidableEq, Repr

/-- Result of one handler invocation: the state afterwards, the event
trace of the invocation, and how it ended. -/
structure FrameResult where
  state : CaptureState
  events : List Event
  outcome : Outcome
  deriving DecidableEq, Repr

/-- `Capture::on_frame_arrived` (tinylogger.rs lines 66-110).

* `now` is the current instant (`Instant::now()`), `sendOk` / `finishOk`
  are the results of the underlying `VideoEncoder::send_frame` /
  `VideoEncoder::finish` collaborator calls.
* Line 71 snapshots `capturing`; the guard temporary is dropped at the end
  of that statement, hence the immediate acquire/release pair.
* In the capturing branch, line 83
  `(*self.flags.video_encoder.lock().unwrap()).as_mut().unwrap().send_frame(frame)?`
  holds the guard temporary until the end of the statement, so `send_frame`
  runs with `encoderLock` held; `unwrap` on an empty slot panics.
* In the stop branch, line 87
  `(*self.flags.video_encoder.lock().unwrap()).take().unwrap().finish()?`
  likewise holds the guard across `finish`; `take` empties the slot before
  `finish` runs; `unwrap` on an empty slot panics.  On a panic the trace
  ends at the panic point (the poisoned guard is dropped during unwind).
* `print!`/`println!`/`flush` are modelled as infallible `logMsg` events. -/
def onFrameArrived (now : Nat) (sendOk finishOk : Bool) (s : CaptureState) :
    FrameResult :=
  let snapshotEvs : List Event := [.acquire .capturingLock, .release .capturingLock]
  let capturing := s.flags.capturing
  if capturing then
    let s1 :=
      if !s.wasCapturing then { s with start := now, wasCapturing := true } else s
    let edgeEvs : List Event :=
      if !s.wasCapturing then [.logMsg "Started capturing!"] else []
    let recEvs : List Event :=
      [.logMsg ("Recording for: " ++ toString (now - s1.start) ++ " seconds")]
    match s1.flags.encoderSlot with
    | some h =>
        { state := s1
          events := snapshotEvs ++ edgeEvs ++ recEvs ++
            [.acquire .encoderLock, .sendFrame h, .release .encoderLock]
          outcome := if sendOk then .ok else .errored "send_frame failed" }
    | none =>
        { state := s1
          events := snapshotEvs ++ edgeEvs ++ recEvs ++ [.acquire .encoderLock]
          outcome := .panicked "unwrap on None" }
  else
    if s.wasCapturing then
      let s1 := { s with wasCapturing := false }
      match s1.flags.encoderSlot with
      | some h =>
          let s2 := { s1 with flags := { s1.flags with encoderSlot := none } }
          if finishOk then
            { state := { s2 with start := now }
              events := snapshotEvs ++
                [.acquire .encoderLock, .finishEnc h, .release .encoderLock,
                 .logMsg "Stopped capturing!"]
              outcome := .ok }
          else
            { state := s2
              events := snapshotEvs ++
                [.acquire .encoderLock, .finishEnc h, .release .encoderLock]
              outcome := .errored "finish failed" }
      | none =>
          { state := s1
            events := snapshotEvs ++ [.acquire .encoderLock]
            outcome := .panicked "unwrap on None" }
    else
      { state := s
        events := snapshotEvs ++
          [.logMsg ("Waiting for: " ++ toString (now - s.start) ++ " seconds")]
        outcome := .ok }

/-- `Capture::on_closed` (tinylogger.rs lines 112-115): prints
"Capture Session Closed" and returns `Ok(())`; it touches neither the
capturing flag nor the encoder slot. -/
def onClosed (s : CaptureState) : FrameResult :=
  { state := s, events := [.logMsg "Capture Session Closed"], outcome := .ok }

/-- The tail of `main` after `Capture::start(settings)` returns
(tinylogger.rs lines 246-247): `main` simply returns `Ok(())`; no
`take()`/`finish()` drain of the encoder slot is performed. -/
def mainTailAfterStart (sh : SharedState) : SharedState × List Event :=
  (sh, [])

/-- Iterated frame delivery: the capture subsystem invokes the handler once
per frame, at instants `nows`, threading the handler state; the traces are
concatenated. -/
def runFrames (sendOk finishOk : Bool) : List Nat → CaptureState →
    CaptureState × List Event
  | [], s => (s, [])
  | now :: rest, s =>
      let r := onFrameArrived now sendOk finishOk s
      let (s', evs) := runFrames sendOk finishOk rest r.state
      (s', r.events ++ evs)

/-- Rust `str::parse::<u32>()`: an optional leading `+`, then one or more
ASCII digits, value below `2^32`; anything else is a parse error
(`None`). -/
def parseU32 (s : String) : Option Nat :=
  let cs :=
    match s.data with
    | '+' :: rest => rest
    | cs => cs
  if cs = [] then none
  else if cs.all Char.isDigit then
    let v := cs.foldl (fun a c => a * 10 + (c.toNat - 48)) 0
    if v < 4294967296 then some v else none
  else none

/-- Result of one iteration of the control-channel loop body: the shared
state afterwards, the messages not yet consumed, the event trace, and how
the iteration ended (`ok` means the loop continues with the next
iteration). -/
structure CtrlResult where
  shared : SharedState
  rest : List String
  events : List Event
  outcome : Outcome
  deriving DecidableEq, Repr

/-- One iteration of the control-channel loop in `main`
(tinylogger.rs lines 183-230), driven by the queue `msgs` of incoming
transport frames.

* `timestamp` is `SystemTime::now()...as_nanos()`, taken once per
  iteration (line 187); `freshId` is the handle id of the encoder a
  `VideoEncoder::new` call would create; `newOk` is whether that creation
  succeeds (line 208 `unwrap`s it, so failure is a panic).
* In the `"start"` arm (lines 190-218), each parameter is received and then
  `parse().unwrap()`ed: a malformed number panics the thread before any
  state is touched.  The encoder is installed unconditionally
  (`*shared_video_encoder = Some(encoder)`, line 210) — there is no
  already-installed check.  Both guards (`shared_video_encoder`,
  `capturing`) are named `let` bindings, dropped at the end of the arm in
  reverse declaration order, so the acknowledgement sends happen with both
  locks held.
* The `"stop"` arm (lines 219-225) sets `capturing = false` and publishes
  the acknowledgement; it never touches the encoder slot.
* Any other message is logged and ignored (lines 226-228).
* An empty queue models a blocking `recv_string` with nothing available. -/
def controlStep (timestamp freshId : Nat) (newOk : Bool) (sh : SharedState)
    (msgs : List String) : CtrlResult :=
  let waitEv : Event := .logMsg "Waiting for message..."
  match msgs with
  | [] => { shared := sh, rest := [], events := [waitEv], outcome := .blocked }
  | message :: rest0 =>
    let recvEv : Event := .logMsg ("Received message: " ++ message)
    if message = "start" then
      match rest0 with
      | [] =>
          { shared := sh, rest := [], events := [waitEv, recvEv]
            outcome := .blocked }
      | videoName :: rest1 =>
        let vEv : Event := .logMsg ("Received video_name: " ++ videoName)
        match rest1 with
        | [] =>
            { shared := sh, rest := [], events := [waitEv, recvEv, vEv]
              outcome := .blocked }
        | fpsS :: rest2 =>
          match parseU32 fpsS with
          | none =>
              { shared := sh, rest := rest2, events := [waitEv, recvEv, vEv]
                outcome := .panicked "invalid digit found in string" }
          | some fps =>
            let fEv : Event := .logMsg ("Received fps: " ++ toString fps)
            match rest2 with
            | [] =>
                { shared := sh, rest := []
                  events := [waitEv, recvEv, vEv, fEv], outcome := .blocked }
            | widthS :: rest3 =>
              match parseU32 widthS with
              | none =>
                  { shared := sh, rest := rest3
                    events := [waitEv, recvEv, vEv, fEv]
                    outcome := .panicked "invalid digit found in string" }
              | some width =>
                let wEv : Event := .logMsg ("Received width: " ++ toString width)
                match rest3 with
                | [] =>
                    { shared := sh, rest := []
                      events := [waitEv, recvEv, vEv, fEv, wEv]
                      outcome := .blocked }
                | heightS :: rest4 =>
                  match parseU32 heightS with
                  | none =>
                      { shared := sh, rest := rest4
                        events := [waitEv, recvEv, vEv, fEv, wEv]
                        outcome := .panicked "invalid digit found in string" }
                  | some height =>
                    let hEv : Event :=
                      .logMsg ("Received height: " ++ toString height)
                    if newOk then
                      { shared := { capturing := true, encoderSlot := some freshId }
                        rest := rest4
                        events := [waitEv, recvEv, vEv, fEv, wEv, hEv,
                          .acquire .encoderLock, .acquire .capturingLock,
                          .logMsg ("Received start signal with video_name: " ++
                            videoName ++ ", fps: " ++ toString fps ++
                            ", width: " ++ toString width ++
                            ", height: " ++ toString height),
                          .pubMsg "start", .pubMsg (toString timestamp),
                          .release .capturingLock, .release .encoderLock]
                        outcome := .ok }
                    else
                      { shared := sh, rest := rest4
                        events := [waitEv, recvEv, vEv, fEv, wEv, hEv]
                        outcome := .panicked "VideoEncoder creation failed" }
    else if message = "stop" then
      { shared := { capturing := false, encoderSlot := sh.encoderSlot }
        rest := rest0
        events := [waitEv, recvEv, .acquire .capturingLock,
          .logMsg "Received stop signal",
          .pubMsg "stop", .pubMsg (toString timestamp),
          .release .capturingLock]
        outcome := .ok }
    else
      { shared := sh, rest := rest0
        events := [waitEv, recvEv,
          .logMsg ("Received unknown signal: " ++ message)]
        outcome := .ok }

/-- The Python-binding `VideoEncoder` wrapper state (encoder.rs line 16):
`encoder: Arc<Mutex<Option<RustVideoEncoder>>>`, the slot holding the
not-yet-finalized inner encoder. -/
structure PyEncoder where
  slot : Option Nat
  deriving DecidableEq, Repr

/-- A Python-visible call result: `ok` for `Ok(())`, otherwise the message
of the raised `PyRuntimeError`. -/
inductive PyResult where
  | ok
  | err : String → PyResult
  deriving DecidableEq, Repr

/-- Result of one wrapper method call: wrapper state afterwards, event
trace, and Python-visible result. -/
structure PyCallResult where
  enc : PyEncoder
  events : List Event
  result : PyResult
  deriving DecidableEq, Repr

/-- `VideoEncoder::send_frame` of the Python binding (encoder.rs
lines 42-63).  `frameOk` is whether `Frame::from_buffer` succeeds,
`sendOk` whether the underlying `send_frame` succeeds.  If the slot is
empty the call raises "VideoEncoder has already been finalized." without
touching the underlying encoder.  The guard `encoder_lock` lives for the
whole method body. -/
def pySendFrame (frameOk sendOk : Bool) (e : PyEncoder) : PyCallResult :=
  match e.slot with
  | some h =>
      if frameOk then
        { enc := e
          events := [.acquire .pyEncoderLock, .sendFrame h,
            .release .pyEncoderLock]
          result := if sendOk then .ok else .err "send_frame error" }
      else
        { enc := e
          events := [.acquire .pyEncoderLock, .release .pyEncoderLock]
          result := .err "from_buffer error" }
  | none =>
      { enc := e
        events := [.acquire .pyEncoderLock, .release .pyEncoderLock]
        result := .err "VideoEncoder has already been finalized." }

/-- `VideoEncoder::finish` of the Python binding (encoder.rs lines 65-78).
`encoder_lock.take()` removes the inner encoder from the slot before
`finish` is called on it; a second call finds the slot empty and raises
"VideoEncoder has already been finalized." without touching the underlying
encoder. -/
def pyFinish (finishOk : Bool) (e : PyEncoder) : PyCallResult :=
  match e.slot with
  | some h =>
      { enc := { slot := none }
        events := [.acquire .pyEncoderLock, .finishEnc h,
          .release .pyEncoderLock]
        result := if finishOk then .ok else .err "finish error" }
  | none =>
      { enc := e
        events := [.acquire .pyEncoderLock, .release .pyEncoderLock]
        result := .err "VideoEncoder has already been finalized." }

/-- Whether an event is a call into the underlying encoder (a feed or a
finalize). -/
def isEncCall : Event → Bool
  | .sendFrame _ => true
  | .finishEnc _ => true
  | _ => false

/-- Whether an event is a finalize call. -/
def isFinishCall : Event → Bool
  | .finishEnc _ => true
  | _ => false

/-- Number of finalize calls in a trace. -/
def countFinish (tr : List Event) : Nat :=
  (tr.filter isFinishCall).length

/-- The encoder calls (feeds/finalizes) of a trace that occur while lock
`l` is held, i.e. while the number of `acquire l` events so far exceeds the
number of `release l` events.  `d` is the hold depth at the start of the
trace. -/
def callsUnderLock (l : Lock) : List Event → Nat → List Event
  | [], _ => []
  | .acquire l2 :: tr, d =>
      callsUnderLock l tr (if l2 = l then d + 1 else d)
  | .release l2 :: tr, d =>
      callsUnderLock l tr (if l2 = l then d - 1 else d)
  | e :: tr, d =>
      (if isEncCall e && d > 0 then [e] else []) ++ callsUnderLock l tr d

/-- `true` iff every encoder call (feed/finalize) of the trace occurs while
lock `l` is held. -/
def allCallsUnderLock (l : Lock) : List Event → Nat → Bool
  | [], _ => true
  | .acquire l2 :: tr, d =>
      allCallsUnderLock l tr (if l2 = l then d + 1 else d)
  | .release l2 :: tr, d =>
      allCallsUnderLock l tr (if l2 = l then d - 1 else d)
  | e :: tr, d =>
      (!isEncCall e || d > 0) && allCallsUnderLock l tr d

/-! ## Helper lemmas -/

/-- The frame handler never writes the `capturing` flag (it only reads it
at line 71). -/
theorem onFrameArrived_capturing_eq (now : Nat) (a b : Bool)
    (s : CaptureState) :
    (onFrameArrived now a b s).state.flags.capturing = s.flags.capturing := by
  rcases s with ⟨⟨cap, slot⟩, st, wc⟩
  cases cap <;> cases wc <;> cases slot <;> cases a <;> cases b <;>
    simp [onFrameArrived]

/-- When the `capturing` snapshot is false, the handler takes the `else`
branch (lines 84-98), which contains no `send_frame` call. -/
theorem onFrameArrived_not_capturing_no_send (now : Nat) (a b : Bool)
    (s : CaptureState) (hc : s.flags.capturing = false) (h : Nat) :
    Event.sendFrame h ∉ (onFrameArrived now a b s).events := by
  rcases s with ⟨⟨cap, slot⟩, st, wc⟩
  simp only at hc
  subst hc
  cases wc <;> cases slot <;> cases a <;> cases b <;>
    simp [onFrameArrived]

/-! ## Claim theorems -/

/-- C1: every invocation of `on_frame_arrived` that observes the shared
`capturing` flag as false performs no `send_frame` call; hence over any
sequence of frame deliveries starting from a non-capturing state, the
encoder is never fed (the flag stays false because the handler never
writes it). -/
theorem C1_no_feed_while_not_capturing (a b : Bool) (now : Nat)
    (nows : List Nat) (s : CaptureState) (hc : s.flags.capturing = false)
    (h : Nat) :
    Event.sendFrame h ∉ (onFrameArrived now a b s).events ∧
    Event.sendFrame h ∉ (runFrames a b nows s).2 := by
  refine ⟨onFrameArrived_not_capturing_no_send now a b s hc h, ?_⟩
  induction nows generalizing s with
  | nil => simp [runFrames]
  | cons n rest ih =>
      simp only [runFrames, List.mem_append, not_or]
      exact ⟨onFrameArrived_not_capturing_no_send n a b s hc h,
        ih _ ((onFrameArrived_capturing_eq n a b s).trans hc)⟩

/-- Witness for C1 at a concrete non-capturing state with an encoder still
in the slot, over two frame deliveries. -/
theorem C1_witness :
    (⟨⟨false, some 5⟩, 0, false⟩ : CaptureState).flags.capturing = false ∧
    (Event.sendFrame 5 ∉
      (onFrameArrived 1 true true ⟨⟨false, some 5⟩, 0, false⟩).events ∧
     Event.sendFrame 5 ∉
      (runFrames true true [1, 2] ⟨⟨false, some 5⟩, 0, false⟩).2) :=
  ⟨rfl, C1_no_feed_while_not_capturing true true 1 [1, 2]
    ⟨⟨false, some 5⟩, 0, false⟩ rfl 5⟩

/-- C3 counterexample: at the concrete state where `capturing = true` and
the encoder slot is empty (the Start race window the claim describes), the
handler does not return cleanly: line 83 `unwrap`s the empty slot and
panics. -/
theorem C3_counterexample :
    (onFrameArrived 5 true true ⟨⟨true, none⟩, 0, false⟩).outcome =
      Outcome.panicked "unwrap on None" ∧
    (onFrameArrived 5 true true ⟨⟨true, none⟩, 0, false⟩).outcome ≠
      Outcome.ok := by
  exact ⟨rfl, by decide⟩

/-- C3 amended: when the handler observes `capturing = true` with an empty
encoder slot, it does drop the frame (no `send_frame` occurs) but it does
not return silently: it panics on `unwrap` of the empty slot
(tinylogger.rs line 83). -/
theorem C3_empty_slot_panics (now : Nat) (a b : Bool) (s : CaptureState)
    (hc : s.flags.capturing = true) (he : s.flags.encoderSlot = none) :
    (onFrameArrived now a b s).outcome = Outcome.panicked "unwrap on None" ∧
    ∀ h, Event.sendFrame h ∉ (onFrameArrived now a b s).events := by
  rcases s with ⟨⟨cap, slot⟩, st, wc⟩
  simp only at hc he
  subst hc; subst he
  cases wc <;> cases a <;> cases b <;> simp [onFrameArrived]

/-- Witness for C3 amended at the concrete race-window state. -/
theorem C3_witness :
    ((⟨⟨true, none⟩, 0, false⟩ : CaptureState).flags.capturing = true ∧
     (⟨⟨true, none⟩, 0, false⟩ : CaptureState).flags.encoderSlot = none) ∧
    ((onFrameArrived 5 true true ⟨⟨true, none⟩, 0, false⟩).outcome =
       Outcome.panicked "unwrap on None" ∧
     ∀ h, Event.sendFrame h ∉
       (onFrameArrived 5 true true ⟨⟨true, none⟩, 0, false⟩).events) :=
  ⟨⟨rfl, rfl⟩,
    C3_empty_slot_panics 5 true true ⟨⟨true, none⟩, 0, false⟩ rfl rfl⟩

/-- C10: `on_frame_arrived` never writes the shared `capturing` flag: the
flag's value after any invocation equals its value before (it is read once
at line 71 and never assigned in lines 66-110). -/
theorem C10_handler_never_writes_capturing (now : Nat) (a b : Bool)
    (s : CaptureState) :
    (onFrameArrived now a b s).state.flags.capturing = s.flags.capturing := by
  rcases s with ⟨⟨cap, slot⟩, st, wc⟩
  cases cap <;> cases wc <;> cases slot <;> cases a <;> cases b <;>
    simp [onFrameArrived]

/-- C4: `finish` is invoked at most once per encoder handle.  Two
consecutive handler invocations while `capturing = false` produce at most
one `finish` call in total (the first stop-edge invocation `take`s the
handle out of the slot before finishing it and clears `was_capturing`, so
the second invocation is idle); likewise two consecutive `finish` calls on
the Python wrapper finalize the underlying encoder at most once (the first
`take`s the slot, the second finds it empty and only raises). -/
theorem C4_finalize_at_most_once :
    (∀ (s : CaptureState) (n1 n2 : Nat) (a b c d : Bool),
      s.flags.capturing = false →
      countFinish ((onFrameArrived n1 a b s).events ++
        (onFrameArrived n2 c d (onFrameArrived n1 a b s).state).events) ≤ 1) ∧
    (∀ (e : PyEncoder) (a b : Bool),
      countFinish ((pyFinish a e).events ++
        (pyFinish b (pyFinish a e).enc).events) ≤ 1) := by
  constructor
  · rintro ⟨⟨cap, slot⟩, st, wc⟩ n1 n2 a b c d hc
    simp only at hc
    subst hc
    cases wc <;> cases slot <;> cases a <;> cases b <;> cases c <;> cases d <;>
      simp [onFrameArrived, countFinish, isFinishCall]
  · rintro ⟨slot⟩ a b
    cases slot <;> simp [pyFinish, countFinish, isFinishCall]

/-- Witness for C4 at a concrete stopping state (encoder installed,
`was_capturing` true, `capturing` false) and for the Python wrapper. -/
theorem C4_witness :
    (⟨⟨false, some 9⟩, 0, true⟩ : CaptureState).flags.capturing = false ∧
    countFinish
      ((onFrameArrived 1 true true ⟨⟨false, some 9⟩, 0, true⟩).events ++
       (onFrameArrived 2 true true
         (onFrameArrived 1 true true ⟨⟨false, some 9⟩, 0, true⟩).state).events)
      ≤ 1 ∧
    countFinish ((pyFinish true ⟨some 9⟩).events ++
      (pyFinish true (pyFinish true ⟨some 9⟩).enc).events) ≤ 1 :=
  ⟨rfl,
   C4_finalize_at_most_once.1 ⟨⟨false, some 9⟩, 0, true⟩ 1 2 true true true
     true rfl,
   C4_finalize_at_most_once.2 ⟨some 9⟩ true true⟩

/-- C9: after any `finish` call on the Python `VideoEncoder` wrapper the
slot is empty, and every subsequent `send_frame` or `finish` call raises
"VideoEncoder has already been finalized.", leaves the empty slot
unchanged, and performs no feed or finalize call on the underlying
encoder. -/
theorem C9_wrapper_after_finish (e : PyEncoder) (a fo so b : Bool) :
    (pyFinish a e).enc.slot = none ∧
    (pySendFrame fo so (pyFinish a e).enc).result =
      PyResult.err "VideoEncoder has already been finalized." ∧
    (pySendFrame fo so (pyFinish a e).enc).enc = (pyFinish a e).enc ∧
    (∀ h, Event.sendFrame h ∉ (pySendFrame fo so (pyFinish a e).enc).events) ∧
    (∀ h, Event.finishEnc h ∉ (pySendFrame fo so (pyFinish a e).enc).events) ∧
    (pyFinish b (pyFinish a e).enc).result =
      PyResult.err "VideoEncoder has already been finalized." ∧
    (pyFinish b (pyFinish a e).enc).enc = (pyFinish a e).enc ∧
    (∀ h, Event.sendFrame h ∉ (pyFinish b (pyFinish a e).enc).events) ∧
    (∀ h, Event.finishEnc h ∉ (pyFinish b (pyFinish a e).enc).events) := by
  rcases e with ⟨slot⟩
  cases slot <;> simp [pyFinish, pySendFrame]

/-- C2 counterexample: a Start processed while an encoder (handle 0) is
already installed and `capturing = true` does install the second encoder:
the slot afterwards holds the freshly created handle 1 (tinylogger.rs
line 210 assigns unconditionally), the old handle is gone without a
`finish`, and no rejection occurs (the iteration ends `ok` with the start
acknowledgement published). -/
theorem C2_counterexample :
    (controlStep 7 1 true ⟨true, some 0⟩
      ["start", "v.mp4", "30", "640", "480"]).shared.encoderSlot = some 1 ∧
    (controlStep 7 1 true ⟨true, some 0⟩
      ["start", "v.mp4", "30", "640", "480"]).shared.encoderSlot ≠ some 0 ∧
    Event.finishEnc 0 ∉
      (controlStep 7 1 true ⟨true, some 0⟩
        ["start", "v.mp4", "30", "640", "480"]).events ∧
    (controlStep 7 1 true ⟨true, some 0⟩
      ["start", "v.mp4", "30", "640", "480"]).outcome = Outcome.ok := by
  refine ⟨rfl, by decide, by decide, rfl⟩

/-- C2 amended: a Start command arriving while a session is already
capturing (an encoder is installed in the slot) is not rejected: the
control loop unconditionally replaces the slot's contents with the newly
created encoder and sets `capturing` true; the previous handle is dropped
without ever being finalized, no error is logged, and the start
acknowledgement is emitted as for a first Start. -/
theorem C2_duplicate_start_replaces (sh : SharedState) (h0 ts fresh : Nat)
    (vname fpsS wS hS : String) (rest : List String) (fv wv hv : Nat)
    (hcap : sh.capturing = true) (hslot : sh.encoderSlot = some h0)
    (hf : parseU32 fpsS = some fv) (hw : parseU32 wS = some wv)
    (hh : parseU32 hS = some hv) :
    (controlStep ts fresh true sh
      ("start" :: vname :: fpsS :: wS :: hS :: rest)).shared =
      { capturing := true, encoderSlot := some fresh } ∧
    (∀ h2, Event.finishEnc h2 ∉
      (controlStep ts fresh true sh
        ("start" :: vname :: fpsS :: wS :: hS :: rest)).events) ∧
    Event.pubMsg "start" ∈
      (controlStep ts fresh true sh
        ("start" :: vname :: fpsS :: wS :: hS :: rest)).events ∧
    (controlStep ts fresh true sh
      ("start" :: vname :: fpsS :: wS :: hS :: rest)).outcome = Outcome.ok := by
  simp [controlStep, hf, hw, hh]

/-- Witness for C2 amended at a concrete already-capturing state. -/
theorem C2_witness :
    ((⟨true, some 0⟩ : SharedState).capturing = true ∧
     (⟨true, some 0⟩ : SharedState).encoderSlot = some 0 ∧
     parseU32 "30" = some 30 ∧ parseU32 "640" = some 640 ∧
     parseU32 "480" = some 480) ∧
    (controlStep 7 1 true ⟨true, some 0⟩
      ["start", "v.mp4", "30", "640", "480"]).shared =
      { capturing := true, encoderSlot := some 1 } :=
  ⟨⟨rfl, rfl, by decide, by decide, by decide⟩,
    (C2_duplicate_start_replaces ⟨true, some 0⟩ 0 7 1 "v.mp4" "30" "640"
      "480" [] 30 640 480 rfl rfl (by decide) (by decide) (by decide)).1⟩

/-- C5 counterexample: on the malformed Start whose fps frame is "abc",
the control thread does not log-and-continue: `parse().unwrap()`
(tinylogger.rs line 194) panics, so the iteration's outcome is a panic,
not a continuation of the loop.  (The state is indeed unchanged and no
acknowledgement is sent, but the loop terminates.) -/
theorem C5_counterexample :
    (controlStep 7 1 true ⟨false, none⟩
      ["start", "v.mp4", "abc", "640", "480"]).outcome =
      Outcome.panicked "invalid digit found in string" ∧
    (controlStep 7 1 true ⟨false, none⟩
      ["start", "v.mp4", "abc", "640", "480"]).outcome ≠ Outcome.ok := by
  refine ⟨rfl, by decide⟩

/-- C5 amended: when a Start command's fps frame fails to parse as an
unsigned integer, the shared state is unchanged and no acknowledgement is
emitted, but the command is not merely dropped with an error logged: the
`unwrap` on the parse result panics the control thread, so the control
loop terminates instead of continuing with subsequent commands. -/
theorem C5_malformed_start_panics (ts fresh : Nat) (nk : Bool)
    (sh : SharedState) (vname fpsS : String) (rest : List String)
    (hf : parseU32 fpsS = none) :
    (controlStep ts fresh nk sh ("start" :: vname :: fpsS :: rest)).shared =
      sh ∧
    (∀ m, Event.pubMsg m ∉
      (controlStep ts fresh nk sh ("start" :: vname :: fpsS :: rest)).events) ∧
    (controlStep ts fresh nk sh ("start" :: vname :: fpsS :: rest)).outcome =
      Outcome.panicked "invalid digit found in string" := by
  simp [controlStep, hf]

/-- Witness for C5 amended at the concrete malformed command. -/
theorem C5_witness :
    parseU32 "abc" = none ∧
    (controlStep 7 1 true ⟨false, none⟩
      ["start", "v.mp4", "abc", "640", "480"]).shared = ⟨false, none⟩ :=
  ⟨by decide,
    (C5_malformed_start_panics 7 1 true ⟨false, none⟩ "v.mp4" "abc"
      ["640", "480"] (by decide)).1⟩

/-- C6: processing a Stop command sets `capturing` to false, leaves the
encoder slot exactly as it was, publishes the "stop" acknowledgement
followed by the timestamp, performs no feed or finalize call, and the loop
continues (tinylogger.rs lines 219-225 touch only the `capturing`
mutex and the publisher). -/
theorem C6_stop_sets_flag_only (ts fresh : Nat) (nk : Bool)
    (sh : SharedState) (rest : List String) :
    (controlStep ts fresh nk sh ("stop" :: rest)).shared =
      { capturing := false, encoderSlot := sh.encoderSlot } ∧
    Event.pubMsg "stop" ∈ (controlStep ts fresh nk sh ("stop" :: rest)).events ∧
    Event.pubMsg (toString ts) ∈
      (controlStep ts fresh nk sh ("stop" :: rest)).events ∧
    (∀ h, Event.finishEnc h ∉
      (controlStep ts fresh nk sh ("stop" :: rest)).events) ∧
    (∀ h, Event.sendFrame h ∉
      (controlStep ts fresh nk sh ("stop" :: rest)).events) ∧
    (controlStep ts fresh nk sh ("stop" :: rest)).outcome = Outcome.ok := by
  simp [controlStep]

/-- C7 counterexample: on subsystem-initiated closure with an encoder
(handle 3) still installed, `on_closed` leaves the slot untouched and
performs no finalize, and the tail of `main` after `Capture::start`
returns performs no take/finalize either — the encoder is never drained
before exit. -/
theorem C7_counterexample :
    (onClosed ⟨⟨false, some 3⟩, 0, false⟩).state.flags.encoderSlot =
      some 3 ∧
    Event.finishEnc 3 ∉ (onClosed ⟨⟨false, some 3⟩, 0, false⟩).events ∧
    mainTailAfterStart ⟨false, some 3⟩ = (⟨false, some 3⟩, []) := by
  refine ⟨rfl, by decide, rfl⟩

/-- C7 amended: no terminal-cleanup path exists: `on_closed`
(tinylogger.rs lines 112-115) only prints a message and changes no state,
and `main` returns immediately after `Capture::start` (lines 246-247)
without taking or finalizing the encoder slot; an encoder still installed
at closure is left unfinalized. -/
theorem C7_no_terminal_cleanup (s : CaptureState) (sh : SharedState) :
    (onClosed s).state = s ∧
    (onClosed s).events = [Event.logMsg "Capture Session Closed"] ∧
    (onClosed s).outcome = Outcome.ok ∧
    countFinish (onClosed s).events = 0 ∧
    mainTailAfterStart sh = (sh, []) := by
  exact ⟨rfl, rfl, rfl, rfl, rfl⟩

/-- C8 counterexample: at concrete states, the handler's `send_frame`
(line 83) and `finish` (line 87) calls both occur while the encoder-slot
mutex is held — the guard temporary of
`(*self.flags.video_encoder.lock().unwrap())...` lives until the end of
the statement, i.e. past the encoder call. -/
theorem C8_counterexample :
    callsUnderLock Lock.encoderLock
      (onFrameArrived 3 true true ⟨⟨true, some 0⟩, 0, true⟩).events 0 =
      [Event.sendFrame 0] ∧
    callsUnderLock Lock.encoderLock
      (onFrameArrived 3 true true ⟨⟨false, some 0⟩, 0, true⟩).events 0 =
      [Event.finishEnc 0] := by
  exact ⟨rfl, rfl⟩

/-- C8 amended: the frame handler always holds the encoder-slot lock
across its encoder calls: in every invocation, every `send_frame` and
`finish` event of the trace occurs between the acquisition and the release
of `encoderLock`, because the `MutexGuard` temporary is dropped only at
the end of the statement containing the call. -/
theorem C8_calls_under_lock (now : Nat) (a b : Bool) (s : CaptureState) :
    allCallsUnderLock Lock.encoderLock
      (onFrameArrived now a b s).events 0 = true := by
  rcases s with ⟨⟨cap, slot⟩, st, wc⟩
  cases cap <;> cases wc <;> cases slot <;> cases a <;> cases b <;>
    simp [onFrameArrived, allCallsUnderLock, isEncCall]

end WinCap
